import Mathlib

/-! Verification of the deveyes adaptive image encoding pipeline.

Shallow embedding of `src/lib/image-processor.ts` and the constants of
`src/config.ts` (the `deveyes` repository), together with proofs about the
numeric policy of the pipeline.

Modelling conventions:
* JavaScript numbers are modelled as `ℕ` (all quantities involved — pixel
  dimensions, byte sizes, qualities — are non-negative integers in every
  reachable state of the source).
* `Math.round(a / b)` on a non-negative rational is `⌊a/b + 1/2⌋`, embedded as
  the natural-number computation `(2*a + b) / (2*b)` (`jsRound`).  The source
  computes with IEEE doubles; the model computes with exact rationals, which
  agrees on all the magnitudes settled here.  Division by zero (`b = 0`) yields
  `0` in the model where JS would yield `Infinity`; no claim is settled on such
  an input.
* `Math.round(d * Math.sqrt(t / s))` is `⌊d·√(t/s) + 1/2⌋`, embedded as
  `(Nat.sqrt (4*d*d*t / s) + 1) / 2` (`jsRoundSqrtScale`); the two agree
  because `⌊√x⌋ = ⌊√⌊x⌋⌋` for rational `x ≥ 0` and
  `⌊(r+1)/2⌋ = (⌊r⌋+1)/2` for real `r ≥ 0`.
* The `sharp` encoder is opaque: a run of `processImage` is parametrised by an
  oracle `enc : width → height → quality → encoded byte size` giving the size
  of each JPEG encode.  Within one run every encode happens at a distinct
  `(width, height, quality)` triple along the loop, so indexing the oracle by
  that triple loses no generality.  Resize operations are modelled as
  producing exactly the requested dimensions, and the final `metadata()` read
  of the output buffer as reporting those tracked dimensions (the
  `?? currentWidth` fallback of the source).
* JS `String.prototype.startsWith` is embedded as a character-list check
  (`jsStartsWith`), and template literals as explicit concatenation with
  `toString`.
-/

namespace DevEyes

/-! Constants — `src/config.ts` (`LLM_LIMITS`, `IMAGE_DEFAULTS`) -/

structure LLMLimitsConfig where
  maxDimension : ℕ
  optimalDimension : ℕ
  minReadableWidth : ℕ
  maxFileSize : ℕ
  targetSize : ℕ
  fullPageTargetSize : ℕ
  tokenDivisor : ℕ
deriving DecidableEq

/-- Constant `LLM_LIMITS` from `src/config.ts`.  `fullPageTargetSize` is
`1.5 * 1024 * 1024 = 1572864`. -/
def LLM_LIMITS : LLMLimitsConfig where
  maxDimension := 8000
  optimalDimension := 1568
  minReadableWidth := 800
  maxFileSize := 5 * 1024 * 1024
  targetSize := 750 * 1024
  fullPageTargetSize := 1572864
  tokenDivisor := 750

structure ImageDefaultsConfig where
  jpegQuality : ℕ
  minJpegQuality : ℕ
  qualityStep : ℕ
deriving DecidableEq

/-- Constant `IMAGE_DEFAULTS` from `src/config.ts` (the `format` field is the fixed
output codec tag and plays no role in the arithmetic). -/
def IMAGE_DEFAULTS : ImageDefaultsConfig where
  jpegQuality := 85
  minJpegQuality := 60
  qualityStep := 10

/-! Arithmetic helpers for the JS operations -/

/-- Embedding of `Math.round (num / den)` for non-negative integers: `⌊num/den + 1/2⌋`. -/
def jsRound (num den : ℕ) : ℕ := (2 * num + den) / (2 * den)

/-- Embedding of `Math.round (d * Math.sqrt (t / s))` for non-negative integers
(see the header for the derivation of this closed form). -/
def jsRoundSqrtScale (d t s : ℕ) : ℕ := (Nat.sqrt (4 * d * d * t / s) + 1) / 2

/-! Dimension calculators — `src/lib/image-processor.ts` lines 68–127 -/

structure Dims where
  width : ℕ
  height : ℕ
deriving DecidableEq

/-- Function `exceedsLimits` (lines 68–74). -/
def exceedsLimits (width height size : ℕ) : Bool :=
  decide (max width height > LLM_LIMITS.maxDimension) ||
  decide (size > LLM_LIMITS.targetSize)

/-- Function `calculateResizeDimensions` (lines 79–95): isotropic cap.
`ratio = maxDimension / maxDim`; each output is
`Math.round(side * ratio) = jsRound (side * maxDimension) maxDim`. -/
def calculateResizeDimensions (width height maxDimension : ℕ) : Dims :=
  let maxDim := max width height
  if maxDim ≤ maxDimension then
    ⟨width, height⟩
  else
    ⟨jsRound (width * maxDimension) maxDim, jsRound (height * maxDimension) maxDim⟩

/-- Function `calculateFullPageDimensions` (lines 101–127): tall-page policy.
`aspectRatio = width / height`;
`Math.round(maxHeight * aspectRatio) = jsRound (maxHeight * width) height` and
`Math.round(minWidth / aspectRatio) = jsRound (minWidth * height) width`. -/
def calculateFullPageDimensions (width height minWidth maxHeight : ℕ) : Dims :=
  if height > maxHeight then
    let scaledWidth := jsRound (maxHeight * width) height
    if scaledWidth < minWidth then
      let newHeight := jsRound (minWidth * height) width
      ⟨minWidth, min newHeight maxHeight⟩
    else
      ⟨scaledWidth, maxHeight⟩
  else if width < minWidth then
    let newHeight := jsRound (minWidth * height) width
    ⟨minWidth, newHeight⟩
  else
    ⟨width, height⟩

/-- Function `estimateTokenCost` (lines 323–325): `Math.ceil((width * height) / 750)`. -/
def estimateTokenCost (width height : ℕ) : ℤ :=
  ⌈((width * height : ℕ) : ℚ) / (LLM_LIMITS.tokenDivisor : ℚ)⌉

/-! Metadata — `sharp(buffer).metadata()` and `getImageInfo` -/

/-- What `sharp(...).metadata()` reports: each field may be absent
(the source applies `?? 0` / `?? 'unknown'` fallbacks). -/
structure SharpMetadata where
  width : Option ℕ
  height : Option ℕ
  format : Option String
deriving DecidableEq

structure ImageMetadata where
  width : ℕ
  height : ℕ
  size : ℕ
  format : String
deriving DecidableEq

/-- Function `getImageInfo` (lines 309–317), as a function of the metadata the decoder
reports for the buffer and of the buffer length. -/
def getImageInfo (meta : SharpMetadata) (bufferLength : ℕ) : ImageMetadata where
  width := meta.width.getD 0
  height := meta.height.getD 0
  size := bufferLength
  format := meta.format.getD ("unknown")

/-! Transform log — string tags and the quality-tag replacement -/

/-- Structural character-list check used to embed JS
`String.prototype.startsWith` (a prefix test on the character sequence). -/
def isPrefixList : List Char → List Char → Bool
  | [], _ => true
  | _ :: _, [] => false
  | a :: as, b :: bs => a == b && isPrefixList as bs

/-- JS `s.startsWith(p)`. -/
def jsStartsWith (s p : String) : Bool := isPrefixList p.data s.data

/-- The fixed prefix of the quality tag. -/
def qualityTagPre : String := "jpeg_quality_"

/-- The fixed prefix of the forced-resize tag. -/
def forcedTagPre : String := "forced_resize_to_"

/-- The template literal `` `jpeg_quality_${q}` ``. -/
def qualityTag (q : ℕ) : String := qualityTagPre ++ toString q

/-- The predicate `t.startsWith('jpeg_quality_')` of line 243. -/
def isQualityTag (t : String) : Bool := jsStartsWith t qualityTagPre

/-- The predicate `t.startsWith('forced_resize_to_')` (the tag pushed at
line 275). -/
def isForcedTag (t : String) : Bool := jsStartsWith t forcedTagPre

/-- Lines 243–248: replace the first `jpeg_quality_` tag in place
(`findIndex` + assignment), or push one if none is present. -/
def updateQualityTag : List String → ℕ → List String
  | [], q => [qualityTag q]
  | t :: ts, q =>
    if isQualityTag t then qualityTag q :: ts else t :: updateQualityTag ts q

/-! The convergence loop — lines 233–249 -/

/-- The mutable state of the loop: current quality, current encoded size,
transform log, `compressed` flag, plus an instrumentation counter of encoder
invocations (not part of the source state; used only to state the resource
bound of the spec). -/
structure LoopState where
  quality : ℕ
  size : ℕ
  transforms : List String
  compressed : Bool
  encodeCalls : ℕ
deriving DecidableEq

/-- Step 4 (lines 233–249):
`while (currentSize > targetSize && quality > IMAGE_DEFAULTS.minJpegQuality)`
decrement the quality by `IMAGE_DEFAULTS.qualityStep`, re-encode, and
record/replace the quality tag. -/
def compressLoop (enc : ℕ → ℕ → ℕ → ℕ) (w h targetSize : ℕ)
    (st : LoopState) : LoopState :=
  if _hc : st.size > targetSize ∧ st.quality > IMAGE_DEFAULTS.minJpegQuality then
    let q := st.quality - IMAGE_DEFAULTS.qualityStep
    compressLoop enc w h targetSize
      { quality := q
        size := enc w h q
        transforms := updateQualityTag st.transforms q
        compressed := true
        encodeCalls := st.encodeCalls + 1 }
  else st
termination_by st.quality
decreasing_by
  have h2 := _hc.2
  simp only [IMAGE_DEFAULTS] at h2 ⊢
  omega

/-! Main pipeline `processImage` — lines 133–304 -/

/-- The outcome of the resize decision of lines 162–220: tracked dimensions,
the `resized` flag and the transform tags pushed so far. -/
structure StageOut where
  width : ℕ
  height : ℕ
  resized : Bool
  transforms : List String
deriving DecidableEq

/-- Lines 162–220 of `processImage`: choose and apply (to the tracked
dimensions) one of the three resize policies — tall-page policy (full page
and aspect ratio above 3:1), isotropic cap to the optimal dimension when the
hard limit is exceeded, isotropic cap to `maxDimension` otherwise (skipped
for full-page captures). -/
def resizeStage (isFullPage : Bool) (maxDimension originalWidth originalHeight : ℕ) :
    StageOut :=
  let maxCurrentDim := max originalWidth originalHeight
  -- Aspect ratio > 3:1 (line 163)
  let isVeryTall := originalHeight > originalWidth * 3
  if isFullPage ∧ isVeryTall then
    let newDims := calculateFullPageDimensions originalWidth originalHeight
      LLM_LIMITS.minReadableWidth (LLM_LIMITS.maxDimension - 500)
    if newDims.width ≠ originalWidth ∨ newDims.height ≠ originalHeight then
      ⟨newDims.width, newDims.height, true,
        ["fullpage_resize_" ++ (toString originalWidth ++ ("x" ++
          (toString originalHeight ++ ("_to_" ++ (toString newDims.width ++
          ("x" ++ toString newDims.height))))))]⟩
    else
      ⟨originalWidth, originalHeight, false, []⟩
  else if maxCurrentDim > LLM_LIMITS.maxDimension then
    let newDims := calculateResizeDimensions originalWidth originalHeight
      LLM_LIMITS.optimalDimension
    ⟨newDims.width, newDims.height, true,
      ["resized_from_" ++ (toString originalWidth ++ ("x" ++
        (toString originalHeight ++ ("_to_" ++ (toString newDims.width ++
        ("x" ++ toString newDims.height))))))]⟩
  else if maxCurrentDim > maxDimension ∧ ¬ isFullPage then
    let newDims := calculateResizeDimensions originalWidth originalHeight
      maxDimension
    ⟨newDims.width, newDims.height, true,
      ["resized_to_optimal_" ++ (toString newDims.width ++ ("x" ++
        toString newDims.height))]⟩
  else
    ⟨originalWidth, originalHeight, false, []⟩

/-- Options record `ProcessImageOptions` (lines 52–63).  `forceResize` is declared in the
source interface but never read by `processImage`. -/
structure ProcessImageOptions where
  maxDimension : Option ℕ := none
  targetSize : Option ℕ := none
  quality : Option ℕ := none
  forceResize : Option Bool := none
  isFullPage : Option Bool := none
deriving DecidableEq

/-- Record `TransformInfo` (lines 22–33). -/
structure TransformInfo where
  resized : Bool
  compressed : Bool
  originalWidth : ℕ
  originalHeight : ℕ
  originalSize : ℕ
  finalWidth : ℕ
  finalHeight : ℕ
  finalSize : ℕ
  quality : ℕ
  transforms : List String
deriving DecidableEq

/-- Result record `ProcessedImage` (lines 38–47), minus the raw bytes and base64 (byte
content is not modelled; `base64` is a re-encoding of `buffer` and carries no
separate information).  `encodeCalls` is instrumentation counting the JPEG
encode invocations of the run. -/
structure ProcessedImage where
  mimeType : String
  transformInfo : TransformInfo
  encodeCalls : ℕ
deriving DecidableEq

/-- Main pipeline `processImage` (lines 133–304), parametrised by the encoder oracle `enc`
and by the metadata the decoder reports for the input buffer.

The stages map to the source as follows:
* option resolution and `targetSize` selection — lines 137–144;
* original metadata with `?? 0` / `?? 'unknown'` fallbacks — lines 148–153;
* `stage`: the resize decision, lines 162–220 (tall-page policy, hard-limit
  cap to optimal, cap to `maxDimension`), returning the tracked dimensions,
  the `resized` flag and the transform tags pushed;
* step 3, lines 222–231: first JPEG encode at the initial quality, the
  `compressed` flag and conditional quality tag (at that point
  `quality = initialQuality`, so the second disjunct of line 228 is `False`;
  it is kept as written);
* step 4: `compressLoop`;
* step 5, lines 252–276: single forced resize with the full-page minimum
  readable width clamp, then one re-encode at the current quality.

The final `metadata()` read of the output buffer (lines 279–281) is modelled
as reporting the tracked dimensions (the `?? currentWidth` fallback). -/
def processImage (enc : ℕ → ℕ → ℕ → ℕ) (meta : SharpMetadata)
    (inputLength : ℕ) (options : ProcessImageOptions) : ProcessedImage :=
  let maxDimension := options.maxDimension.getD LLM_LIMITS.optimalDimension
  let initialQuality := options.quality.getD IMAGE_DEFAULTS.jpegQuality
  let isFullPage := options.isFullPage.getD false
  let targetSize :=
    if isFullPage then LLM_LIMITS.fullPageTargetSize
    else options.targetSize.getD LLM_LIMITS.targetSize
  let originalWidth := meta.width.getD 0
  let originalHeight := meta.height.getD 0
  let originalSize := inputLength
  let originalFormat := meta.format.getD ("unknown")
  -- Lines 162–220: resize decision
  let stage := resizeStage isFullPage maxDimension originalWidth originalHeight
  let w1 := stage.width
  let h1 := stage.height
  let resized1 := stage.resized
  let ts1 := stage.transforms
  -- Step 3 (lines 222–231)
  let size0 := enc w1 h1 initialQuality
  let comp0 : Bool :=
    decide (originalFormat ≠ "jpeg" ∨ initialQuality < initialQuality)
  let ts2 := if comp0 then ts1 ++ [qualityTag initialQuality] else ts1
  -- Step 4 (lines 233–249)
  let st := compressLoop enc w1 h1 targetSize
    { quality := initialQuality, size := size0, transforms := ts2,
      compressed := comp0, encodeCalls := 1 }
  -- Step 5 (lines 252–276)
  if st.size > targetSize then
    let newWidth0 := jsRoundSqrtScale w1 targetSize st.size
    let newHeight0 := jsRoundSqrtScale h1 targetSize st.size
    let forced : ℕ × ℕ :=
      if isFullPage ∧ newWidth0 < LLM_LIMITS.minReadableWidth then
        (LLM_LIMITS.minReadableWidth,
          jsRound (h1 * LLM_LIMITS.minReadableWidth) w1)
      else
        (newWidth0, newHeight0)
    let newWidth := forced.1
    let newHeight := forced.2
    { mimeType := "image/jpeg"
      transformInfo :=
        { resized := true
          compressed := st.compressed
          originalWidth := originalWidth
          originalHeight := originalHeight
          originalSize := originalSize
          finalWidth := newWidth
          finalHeight := newHeight
          finalSize := enc newWidth newHeight st.quality
          quality := st.quality
          transforms := st.transforms ++
            [forcedTagPre ++ (toString newWidth ++ ("x" ++ toString newHeight))] }
      encodeCalls := st.encodeCalls + 1 }
  else
    { mimeType := "image/jpeg"
      transformInfo :=
        { resized := resized1
          compressed := st.compressed
          originalWidth := originalWidth
          originalHeight := originalHeight
          originalSize := originalSize
          finalWidth := w1
          finalHeight := h1
          finalSize := st.size
          quality := st.quality
          transforms := st.transforms }
      encodeCalls := st.encodeCalls }

/-! Arithmetic lemmas about the rounding helpers -/

theorem jsRound_le (num den bound : ℕ) (h : num ≤ bound * den) :
    jsRound num den ≤ bound := by
  rcases Nat.eq_zero_or_pos den with hd | hd
  · subst hd; simp [jsRound]
  · have h2 : 2 * num + den < (bound + 1) * (2 * den) := by nlinarith
    have h3 : (2 * num + den) / (2 * den) < bound + 1 :=
      (Nat.div_lt_iff_lt_mul (by omega)).mpr h2
    simpa [jsRound] using Nat.lt_succ_iff.mp h3

theorem jsRoundSqrtScale_le (d t s : ℕ) (h : t < s) : jsRoundSqrtScale d t s ≤ d := by
  rcases Nat.eq_zero_or_pos d with hd | hd
  · subst hd; simp [jsRoundSqrtScale]
  · have hs : 0 < s := by omega
    have h1 : 4 * d * d * t / s < (2 * d) ^ 2 := by
      rw [Nat.div_lt_iff_lt_mul hs]
      nlinarith
    have h2 : Nat.sqrt (4 * d * d * t / s) < 2 * d := Nat.sqrt_lt'.mpr h1
    simp only [jsRoundSqrtScale]
    omega

theorem calculateResizeDimensions_le (w h b : ℕ) :
    (calculateResizeDimensions w h b).width ≤ b ∧
    (calculateResizeDimensions w h b).height ≤ b := by
  simp only [calculateResizeDimensions]
  split
  next hle =>
    constructor
    · exact le_trans (le_max_left w h) hle
    · exact le_trans (le_max_right w h) hle
  next hgt =>
    constructor
    · exact jsRound_le _ _ _ (by nlinarith [le_max_left w h])
    · exact jsRound_le _ _ _ (by nlinarith [le_max_right w h])

theorem calculateFullPageDimensions_width_ge (w h minW maxH : ℕ) :
    minW ≤ (calculateFullPageDimensions w h minW maxH).width := by
  simp only [calculateFullPageDimensions]
  split_ifs <;> simp <;> omega

/-! Lemmas about the transform tags -/

theorem isPrefixList_append_self (l r : List Char) :
    isPrefixList l (l ++ r) = true := by
  induction l with
  | nil => rfl
  | cons a as ih => simp [isPrefixList, ih]

theorem jsStartsWith_append (p r : String) : jsStartsWith (p ++ r) p = true := by
  rw [jsStartsWith, String.data_append]
  exact isPrefixList_append_self _ _

theorem data_append_cons (s r : String) (c : Char) (tl : List Char)
    (hs : s.data = c :: tl) : (s ++ r).data = c :: (tl ++ r.data) := by
  rw [String.data_append, hs]
  rfl

theorem data_append_cons2 (s r : String) (a b : Char) (tl : List Char)
    (hs : s.data = a :: b :: tl) : (s ++ r).data = a :: b :: (tl ++ r.data) := by
  rw [String.data_append, hs]
  rfl

theorem jsStartsWith_false_head (s p : String) (a b : Char) (as bs : List Char)
    (hs : s.data = a :: as) (hp : p.data = b :: bs) (hne : b ≠ a) :
    jsStartsWith s p = false := by
  rw [jsStartsWith, hs, hp]
  simp [isPrefixList, beq_iff_eq, hne]

theorem jsStartsWith_false_second (s p : String) (a c d : Char) (as bs : List Char)
    (hs : s.data = a :: c :: as) (hp : p.data = a :: d :: bs) (hne : d ≠ c) :
    jsStartsWith s p = false := by
  rw [jsStartsWith, hs, hp]
  simp [isPrefixList, beq_iff_eq, hne]

theorem isQualityTag_qualityTag (q : ℕ) : isQualityTag (qualityTag q) = true :=
  jsStartsWith_append qualityTagPre (toString q)

theorem isQualityTag_fullpage (r : String) :
    isQualityTag ("fullpage_resize_" ++ r) = false :=
  jsStartsWith_false_head _ _ 'f' 'j' _ (("peg_quality_").data)
    (data_append_cons _ _ _ (("ullpage_resize_").data) (by decide))
    (by decide) (by decide)

theorem isQualityTag_resized_from (r : String) :
    isQualityTag ("resized_from_" ++ r) = false :=
  jsStartsWith_false_head _ _ 'r' 'j' _ (("peg_quality_").data)
    (data_append_cons _ _ _ (("esized_from_").data) (by decide))
    (by decide) (by decide)

theorem isQualityTag_resized_to_optimal (r : String) :
    isQualityTag ("resized_to_optimal_" ++ r) = false :=
  jsStartsWith_false_head _ _ 'r' 'j' _ (("peg_quality_").data)
    (data_append_cons _ _ _ (("esized_to_optimal_").data) (by decide))
    (by decide) (by decide)

theorem isQualityTag_forced (r : String) :
    isQualityTag (forcedTagPre ++ r) = false :=
  jsStartsWith_false_head _ _ 'f' 'j' _ (("peg_quality_").data)
    (data_append_cons _ _ _ (("orced_resize_to_").data) (by decide))
    (by decide) (by decide)

theorem isForcedTag_qualityTag (q : ℕ) : isForcedTag (qualityTag q) = false :=
  jsStartsWith_false_head _ _ 'j' 'f' _ (("orced_resize_to_").data)
    (data_append_cons _ _ _ (("peg_quality_").data) (by decide))
    (by decide) (by decide)

theorem isForcedTag_fullpage (r : String) :
    isForcedTag ("fullpage_resize_" ++ r) = false :=
  jsStartsWith_false_second _ _ 'f' 'u' 'o' _ (("rced_resize_to_").data)
    (data_append_cons2 _ _ _ _ (("llpage_resize_").data) (by decide))
    (by decide) (by decide)

theorem isForcedTag_resized_from (r : String) :
    isForcedTag ("resized_from_" ++ r) = false :=
  jsStartsWith_false_head _ _ 'r' 'f' _ (("orced_resize_to_").data)
    (data_append_cons _ _ _ (("esized_from_").data) (by decide))
    (by decide) (by decide)

theorem isForcedTag_resized_to_optimal (r : String) :
    isForcedTag ("resized_to_optimal_" ++ r) = false :=
  jsStartsWith_false_head _ _ 'r' 'f' _ (("orced_resize_to_").data)
    (data_append_cons _ _ _ (("esized_to_optimal_").data) (by decide))
    (by decide) (by decide)

theorem isForcedTag_of_isQualityTag (t : String) (h : isQualityTag t = true) :
    isForcedTag t = false := by
  have hj : qualityTagPre.data = 'j' :: ("peg_quality_").data := by decide
  rw [isQualityTag, jsStartsWith, hj] at h
  rcases ht : t.data with _ | ⟨c, cs⟩
  · rw [ht] at h
    exact absurd h (by simp [isPrefixList])
  · rw [ht] at h
    have hc : ('j' == c) = true := by
      by_contra hb
      simp only [isPrefixList, Bool.and_eq_true] at h
      exact hb h.1
    have hcj : c = 'j' := (beq_iff_eq.mp hc).symm
    exact jsStartsWith_false_head _ _ 'j' 'f' cs (("orced_resize_to_").data)
      (by rw [ht, hcj]) (by decide) (by decide)

theorem countP_updateQualityTag_le (ts : List String) (q : ℕ)
    (h : ts.countP isQualityTag ≤ 1) :
    (updateQualityTag ts q).countP isQualityTag ≤ 1 := by
  induction ts with
  | nil => simp [updateQualityTag, isQualityTag_qualityTag]
  | cons t ts ih =>
    by_cases hq : isQualityTag t = true
    · rw [updateQualityTag, if_pos hq]
      simp [List.countP_cons, hq, isQualityTag_qualityTag] at h ⊢
      exact h
    · rw [updateQualityTag, if_neg hq]
      simp only [Bool.not_eq_true] at hq
      simp [List.countP_cons, hq] at h ⊢
      exact ih h

theorem countP_updateQualityTag_eq (p : String → Bool)
    (hq : ∀ n : ℕ, p (qualityTag n) = false)
    (hcomp : ∀ t, isQualityTag t = true → p t = false)
    (ts : List String) (q : ℕ) :
    (updateQualityTag ts q).countP p = ts.countP p := by
  induction ts with
  | nil => simp [updateQualityTag, hq]
  | cons t ts ih =>
    by_cases hqt : isQualityTag t = true
    · rw [updateQualityTag, if_pos hqt]
      simp [List.countP_cons, hq, hcomp t hqt]
    · rw [updateQualityTag, if_neg hqt]
      simp [List.countP_cons, ih]

/-! Invariants of the convergence loop -/

/-- Number of quality decrements available from `q0` down to the floor:
`⌈(q0 − floor) / step⌉`. -/
def numQualitySteps (q0 : ℕ) : ℕ :=
  (q0 - IMAGE_DEFAULTS.minJpegQuality + IMAGE_DEFAULTS.qualityStep - 1) /
    IMAGE_DEFAULTS.qualityStep

theorem compressLoop_countP_quality (enc : ℕ → ℕ → ℕ → ℕ) (w h t : ℕ)
    (st : LoopState) :
    st.transforms.countP isQualityTag ≤ 1 →
    ((compressLoop enc w h t st).transforms).countP isQualityTag ≤ 1 := by
  induction st using compressLoop.induct enc w h t with
  | case1 x hc q ih =>
    intro hct
    rw [compressLoop, dif_pos hc]
    exact ih (countP_updateQualityTag_le _ _ hct)
  | case2 x hc =>
    intro hct
    rw [compressLoop, dif_neg hc]
    exact hct

theorem compressLoop_countP_eq (p : String → Bool)
    (hq : ∀ n : ℕ, p (qualityTag n) = false)
    (hcomp : ∀ t', isQualityTag t' = true → p t' = false)
    (enc : ℕ → ℕ → ℕ → ℕ) (w h t : ℕ) (st : LoopState) :
    ((compressLoop enc w h t st).transforms).countP p = st.transforms.countP p := by
  induction st using compressLoop.induct enc w h t with
  | case1 x hc q ih =>
    rw [compressLoop, dif_pos hc]
    exact ih.trans (countP_updateQualityTag_eq p hq hcomp _ _)
  | case2 x hc =>
    rw [compressLoop, dif_neg hc]

theorem compressLoop_encodeCalls (enc : ℕ → ℕ → ℕ → ℕ) (w h t : ℕ)
    (st : LoopState) :
    (compressLoop enc w h t st).encodeCalls ≤
      st.encodeCalls + numQualitySteps st.quality := by
  induction st using compressLoop.induct enc w h t with
  | case1 x hc q ih =>
    rw [compressLoop, dif_pos hc]
    refine le_trans ih ?_
    have h2 := hc.2
    have hqdef : q = x.quality - IMAGE_DEFAULTS.qualityStep := rfl
    simp only [IMAGE_DEFAULTS, numQualitySteps] at h2 hqdef ⊢
    omega
  | case2 x hc =>
    rw [compressLoop, dif_neg hc]
    omega

/-! Lemmas about the resize decision stage -/

theorem resizeStage_width_ge_of_tall (maxD w h : ℕ) (htall : w * 3 < h) :
    LLM_LIMITS.minReadableWidth ≤ (resizeStage true maxD w h).width := by
  simp only [resizeStage]
  rw [if_pos (⟨trivial, htall⟩ : True ∧ h > w * 3)]
  split
  next hne => exact calculateFullPageDimensions_width_ge _ _ _ _
  next hne =>
    push_neg at hne
    calc LLM_LIMITS.minReadableWidth
        ≤ (calculateFullPageDimensions w h LLM_LIMITS.minReadableWidth
            (LLM_LIMITS.maxDimension - 500)).width :=
          calculateFullPageDimensions_width_ge _ _ _ _
      _ = w := hne.1

theorem resizeStage_le_opt_of_not_fullPage (maxD w h : ℕ)
    (hmd : maxD ≤ LLM_LIMITS.optimalDimension)
    (hbig : LLM_LIMITS.optimalDimension < max w h) :
    (resizeStage false maxD w h).width ≤ LLM_LIMITS.optimalDimension ∧
    (resizeStage false maxD w h).height ≤ LLM_LIMITS.optimalDimension := by
  simp only [resizeStage]
  rw [if_neg (by simp)]
  split
  next h8 =>
    exact ⟨(calculateResizeDimensions_le _ _ _).1,
      (calculateResizeDimensions_le _ _ _).2⟩
  next h8 =>
    split
    next h3 =>
      exact ⟨le_trans (calculateResizeDimensions_le _ _ _).1 hmd,
        le_trans (calculateResizeDimensions_le _ _ _).2 hmd⟩
    next h3 =>
      exfalso
      simp only [Bool.false_eq_true, not_false_eq_true, and_true, not_lt] at h3
      exact absurd hbig (not_lt.mpr (le_trans h3 hmd))

theorem resizeStage_le_opt_of_huge (maxD w h : ℕ)
    (hbig : LLM_LIMITS.maxDimension < max w h) :
    (resizeStage false maxD w h).width ≤ LLM_LIMITS.optimalDimension ∧
    (resizeStage false maxD w h).height ≤ LLM_LIMITS.optimalDimension := by
  simp only [resizeStage]
  rw [if_neg (by simp), if_pos hbig]
  exact ⟨(calculateResizeDimensions_le _ _ _).1,
    (calculateResizeDimensions_le _ _ _).2⟩

theorem resizeStage_countP_quality (fp : Bool) (maxD w h : ℕ) :
    ((resizeStage fp maxD w h).transforms).countP isQualityTag = 0 := by
  simp only [resizeStage]
  split_ifs <;>
    simp [isQualityTag_fullpage, isQualityTag_resized_from,
      isQualityTag_resized_to_optimal]

theorem resizeStage_countP_forced (fp : Bool) (maxD w h : ℕ) :
    ((resizeStage fp maxD w h).transforms).countP isForcedTag = 0 := by
  simp only [resizeStage]
  split_ifs <;>
    simp [isForcedTag_fullpage, isForcedTag_resized_from,
      isForcedTag_resized_to_optimal]

theorem isForcedTag_forcedTag (r : String) : isForcedTag (forcedTagPre ++ r) = true :=
  jsStartsWith_append forcedTagPre r

theorem loop_calls_le (enc : ℕ → ℕ → ℕ → ℕ) (w h T q0 s0 : ℕ)
    (ts : List String) (c0 : Bool) :
    (compressLoop enc w h T ⟨q0, s0, ts, c0, 1⟩).encodeCalls ≤
      numQualitySteps q0 + 1 := by
  have := compressLoop_encodeCalls enc w h T ⟨q0, s0, ts, c0, 1⟩
  simpa [Nat.add_comm] using this

/-! Claim theorems -/

/-- C1 (code bug witness): with the default configuration (initial quality 85,
quality floor 60, step 10) and an input whose JPEG encodes all exceed the
byte budget, the convergence loop tries 85, 75, 65 and then decrements once
more to 55 — the returned quality is 55, strictly below the configured floor
`minJpegQuality = 60`, contradicting the claimed invariant
`qualityFloor ≤ finalQuality` (and the config comment saying the quality
"won't go below" the minimum). -/
theorem C1_quality_floor_underflow :
    ((processImage (fun _ _ _ => 1000000) ⟨some 100, some 100, some ("png")⟩
      50000 {}).transformInfo.quality = 55) ∧
    55 < IMAGE_DEFAULTS.minJpegQuality ∧
    ({} : ProcessImageOptions).quality.getD IMAGE_DEFAULTS.jpegQuality = 85 := by
  refine ⟨?_, by decide, rfl⟩
  simp [processImage, resizeStage, compressLoop, LLM_LIMITS, IMAGE_DEFAULTS]

/-- C2 (code bug witness): a full-page 100×7000 capture takes the tall-page
path; `calculateFullPageDimensions` hits the branch with height within
`maxHeight` and width below `minWidth`, which scales the width up to 800 and
the height proportionally to 56000 without any clamp — the returned
`finalHeight` is 56000, violating the claimed unconditional bound
`max(finalWidth, finalHeight) ≤ maxDimension = 8000`. -/
theorem C2_maxDimension_violated :
    ((processImage (fun _ _ _ => 1000) ⟨some 100, some 7000, some ("png")⟩
      50000 { isFullPage := some true }).transformInfo.finalHeight = 56000) ∧
    LLM_LIMITS.maxDimension < 56000 := by
  refine ⟨?_, by decide⟩
  simp [processImage, resizeStage, compressLoop, calculateFullPageDimensions,
    jsRound, LLM_LIMITS, IMAGE_DEFAULTS]

/-- C4 (counterexample): a capture flagged full-page with moderate aspect
ratio (2000×1500, not tall-page since 1500 ≤ 3·2000) whose max dimension 2000
exceeds `optimalDimension = 1568` is returned unresized at 2000×1500 — its
final max dimension exceeds `optimalDimension`, refuting the claim for this
non-tall-page capture. -/
theorem C4_counterexample :
    (¬ 2000 * 3 < 1500) ∧
    LLM_LIMITS.optimalDimension < max 2000 1500 ∧
    ((processImage (fun _ _ _ => 1000) ⟨some 2000, some 1500, some ("png")⟩
      1000 { isFullPage := some true }).transformInfo.finalWidth = 2000) ∧
    ((processImage (fun _ _ _ => 1000) ⟨some 2000, some 1500, some ("png")⟩
      1000 { isFullPage := some true }).transformInfo.finalHeight = 1500) := by
  refine ⟨by norm_num, by norm_num [LLM_LIMITS], ?_, ?_⟩ <;>
  simp [processImage, resizeStage, compressLoop, LLM_LIMITS, IMAGE_DEFAULTS]

/-- C5 (counterexample): a full-page 9000×30000 capture has original max
dimension 30000 > `maxDimension` = 8000, but takes the tall-page path and is
returned at 2250×7500 — its final max dimension 7500 exceeds
`optimalDimension` = 1568, refuting the universal direct-to-optimal claim. -/
theorem C5_counterexample :
    LLM_LIMITS.maxDimension < max 9000 30000 ∧
    ((processImage (fun _ _ _ => 1000) ⟨some 9000, some 30000, some ("png")⟩
      1000 { isFullPage := some true }).transformInfo.finalWidth = 2250) ∧
    ((processImage (fun _ _ _ => 1000) ⟨some 9000, some 30000, some ("png")⟩
      1000 { isFullPage := some true }).transformInfo.finalHeight = 7500) ∧
    LLM_LIMITS.optimalDimension < 7500 := by
  refine ⟨by norm_num [LLM_LIMITS], ?_, ?_, by norm_num [LLM_LIMITS]⟩ <;>
  simp [processImage, resizeStage, compressLoop, calculateFullPageDimensions,
    jsRound, LLM_LIMITS, IMAGE_DEFAULTS]

/-- C7 (counterexample): on an input whose decoder reports width 0,
`getImageInfo` does not fail — it returns the metadata with width 0 — and
`processImage` returns a normal result propagating the zero width, so zero
dimensions are not treated as a decode failure. -/
theorem C7_counterexample :
    getImageInfo ⟨some 0, some 100, some ("png")⟩ 42 = ⟨0, 100, 42, "png"⟩ ∧
    ((processImage (fun _ _ _ => 1000) ⟨some 0, some 100, some ("png")⟩ 42
      {}).transformInfo.originalWidth = 0) ∧
    ((processImage (fun _ _ _ => 1000) ⟨some 0, some 100, some ("png")⟩ 42
      {}).transformInfo.finalWidth = 0) := by
  refine ⟨by decide, ?_, ?_⟩ <;>
  simp [processImage, resizeStage, compressLoop, LLM_LIMITS, IMAGE_DEFAULTS]

/-- C9: `estimateTokenCost width height` equals `⌈width·height / 750⌉` for
all non-negative integer inputs — equivalently the integer computation
`(width·height + 749) / 750` — and in particular
`estimateTokenCost 1568 1568 = 3279`. -/
theorem C9_estimateTokenCost_ceil :
    (∀ w h : ℕ, estimateTokenCost w h = (((w * h + 749) / 750 : ℕ) : ℤ)) ∧
    estimateTokenCost 1568 1568 = 3279 := by
  have key : ∀ n : ℕ, (⌈((n : ℚ)) / 750⌉ : ℤ) = (((n + 749) / 750 : ℕ) : ℤ) := by
    intro n
    rw [Int.ceil_eq_iff]
    set m := (n + 749) / 750 with hmdef
    have hm1 : m * 750 ≤ n + 749 := Nat.div_mul_le_self _ _
    have hm2 : n + 749 < (m + 1) * 750 :=
      (Nat.div_lt_iff_lt_mul (by norm_num)).mp (Nat.lt_succ_self _)
    constructor
    · rw [lt_div_iff₀ (by norm_num : (0 : ℚ) < 750)]
      have hA' : ((m * 750 : ℕ) : ℚ) < ((n + 750 : ℕ) : ℚ) := by
        exact_mod_cast (by omega : m * 750 < n + 750)
      push_cast at hA' ⊢
      linarith
    · rw [div_le_iff₀ (by norm_num : (0 : ℚ) < 750)]
      have hB' : ((n : ℕ) : ℚ) ≤ ((m * 750 : ℕ) : ℚ) := by
        exact_mod_cast (by omega : n ≤ m * 750)
      push_cast at hB' ⊢
      linarith
  constructor
  · intro w h
    have := key (w * h)
    simpa [estimateTokenCost, LLM_LIMITS] using this
  · have := key (1568 * 1568)
    have h2 : estimateTokenCost 1568 1568 = ⌈((1568 * 1568 : ℕ) : ℚ) / 750⌉ := rfl
    rw [h2, this]
    norm_num

/-- C10: `calculateResizeDimensions` can return a zero dimension on strictly
positive inputs: at width 1, height 20000, bound 1568 the scaled width
rounds to 0. -/
theorem C10_resize_zero_width :
    (0 < 1 ∧ 0 < 20000 ∧
      calculateResizeDimensions 1 20000 LLM_LIMITS.optimalDimension =
        ⟨0, 1568⟩) ∧
    ∃ w h : ℕ, 0 < w ∧ 0 < h ∧
      (calculateResizeDimensions w h LLM_LIMITS.optimalDimension).width = 0 :=
  ⟨⟨by norm_num, by norm_num, by decide⟩,
    1, 20000, by norm_num, by norm_num, by decide⟩

/-- C3: for every invocation taking the tall-page path (`isFullPage` true and
height > 3 × width), the returned `finalWidth` is at least
`minReadableWidth = 800` — both the tall-page resize and the forced-resize
clamp keep the width at or above the readable minimum, for every encoder
oracle and option set. -/
theorem C3_tall_page_min_width (enc : ℕ → ℕ → ℕ → ℕ) (meta : SharpMetadata)
    (len : ℕ) (opts : ProcessImageOptions)
    (hfp : opts.isFullPage = some true)
    (htall : (meta.width.getD 0) * 3 < meta.height.getD 0) :
    LLM_LIMITS.minReadableWidth ≤
      (processImage enc meta len opts).transformInfo.finalWidth := by
  simp only [processImage, hfp, Option.getD_some, eq_self_iff_true, true_and,
    if_true]
  repeat' split
  all_goals dsimp only
  all_goals
    first
    | exact resizeStage_width_ge_of_tall _ _ _ htall
    | omega

/-- C3 witness: a tall full-page 100×7000 capture with a small-output encoder
oracle yields a final width of at least 800. -/
theorem C3_tall_page_min_width_witness :
    LLM_LIMITS.minReadableWidth ≤
      (processImage (fun _ _ _ => 0) ⟨some 100, some 7000, some ("png")⟩
        50000 { isFullPage := some true }).transformInfo.finalWidth :=
  C3_tall_page_min_width (fun _ _ _ => 0) ⟨some 100, some 7000, some ("png")⟩
    50000 { isFullPage := some true } rfl (by decide)

/-- C4 (amended): for every capture that is not flagged full-page, with the
default `maxDimension` option (or any value at most `optimalDimension`),
whose original max dimension exceeds `optimalDimension = 1568`, the result
satisfies `max(finalWidth, finalHeight) ≤ optimalDimension`.  (The original
claim also covered captures flagged full-page with moderate aspect ratio,
which the code leaves unresized — see the counterexample.) -/
theorem C4_amended_not_fullpage_to_optimal (enc : ℕ → ℕ → ℕ → ℕ)
    (meta : SharpMetadata) (len : ℕ) (opts : ProcessImageOptions)
    (hfp : opts.isFullPage.getD false = false)
    (hmd : opts.maxDimension.getD LLM_LIMITS.optimalDimension ≤
      LLM_LIMITS.optimalDimension)
    (hbig : LLM_LIMITS.optimalDimension <
      max (meta.width.getD 0) (meta.height.getD 0)) :
    max (processImage enc meta len opts).transformInfo.finalWidth
      (processImage enc meta len opts).transformInfo.finalHeight ≤
      LLM_LIMITS.optimalDimension := by
  simp only [processImage, hfp, Bool.false_eq_true, false_and, if_false,
    ite_false]
  repeat' split
  all_goals dsimp only
  all_goals
    first
    | exact max_le (resizeStage_le_opt_of_not_fullPage _ _ _ hmd hbig).1
        (resizeStage_le_opt_of_not_fullPage _ _ _ hmd hbig).2
    | rename_i hs
      exact max_le
        (le_trans (jsRoundSqrtScale_le _ _ _ hs)
          (resizeStage_le_opt_of_not_fullPage _ _ _ hmd hbig).1)
        (le_trans (jsRoundSqrtScale_le _ _ _ hs)
          (resizeStage_le_opt_of_not_fullPage _ _ _ hmd hbig).2)

/-- C4 witness: a non-full-page 2000×1500 capture is brought within the
optimal dimension. -/
theorem C4_amended_witness :
    max (processImage (fun _ _ _ => 0) ⟨some 2000, some 1500, some ("png")⟩
        1000 {}).transformInfo.finalWidth
      (processImage (fun _ _ _ => 0) ⟨some 2000, some 1500, some ("png")⟩
        1000 {}).transformInfo.finalHeight ≤ LLM_LIMITS.optimalDimension :=
  C4_amended_not_fullpage_to_optimal (fun _ _ _ => 0)
    ⟨some 2000, some 1500, some ("png")⟩ 1000 {} rfl (by decide) (by decide)

/-- C5 (amended): for every capture not flagged full-page whose original max
dimension exceeds `maxDimension = 8000`, the result satisfies
`max(finalWidth, finalHeight) ≤ optimalDimension = 1568` (direct jump to the
optimal dimension), for any options.  (The original claim was universal over
all captures; full-page tall captures take the tall-page path instead — see
the counterexample.) -/
theorem C5_amended_huge_to_optimal (enc : ℕ → ℕ → ℕ → ℕ)
    (meta : SharpMetadata) (len : ℕ) (opts : ProcessImageOptions)
    (hfp : opts.isFullPage.getD false = false)
    (hbig : LLM_LIMITS.maxDimension <
      max (meta.width.getD 0) (meta.height.getD 0)) :
    max (processImage enc meta len opts).transformInfo.finalWidth
      (processImage enc meta len opts).transformInfo.finalHeight ≤
      LLM_LIMITS.optimalDimension := by
  simp only [processImage, hfp, Bool.false_eq_true, false_and, if_false,
    ite_false]
  repeat' split
  all_goals dsimp only
  all_goals
    first
    | exact max_le (resizeStage_le_opt_of_huge _ _ _ hbig).1
        (resizeStage_le_opt_of_huge _ _ _ hbig).2
    | rename_i hs
      exact max_le
        (le_trans (jsRoundSqrtScale_le _ _ _ hs)
          (resizeStage_le_opt_of_huge _ _ _ hbig).1)
        (le_trans (jsRoundSqrtScale_le _ _ _ hs)
          (resizeStage_le_opt_of_huge _ _ _ hbig).2)

/-- C5 witness: a non-full-page 9000×6000 capture (max dimension above the
hard ceiling) lands within the optimal dimension. -/
theorem C5_amended_witness :
    max (processImage (fun _ _ _ => 0) ⟨some 9000, some 6000, some ("png")⟩
        1000 {}).transformInfo.finalWidth
      (processImage (fun _ _ _ => 0) ⟨some 9000, some 6000, some ("png")⟩
        1000 {}).transformInfo.finalHeight ≤ LLM_LIMITS.optimalDimension :=
  C5_amended_huge_to_optimal (fun _ _ _ => 0)
    ⟨some 9000, some 6000, some ("png")⟩ 1000 {} rfl (by decide)

/-- C6: in the result of every invocation of `processImage`, the transform
log contains at most one quality tag (entry starting with `jpeg_quality_`):
the loop replaces the existing tag in place rather than appending a second
one, and no other step adds one. -/
theorem C6_single_quality_tag (enc : ℕ → ℕ → ℕ → ℕ) (meta : SharpMetadata)
    (len : ℕ) (opts : ProcessImageOptions) :
    ((processImage enc meta len opts).transformInfo.transforms).countP
      isQualityTag ≤ 1 := by
  have hts2 : ∀ (b : Bool) (ts1 : List String) (q0 : ℕ),
      ts1.countP isQualityTag = 0 →
      ((if b then ts1 ++ [qualityTag q0] else ts1).countP isQualityTag) ≤ 1 := by
    intro b ts1 q0 h0
    cases b <;> simp [List.countP_append, h0, isQualityTag_qualityTag]
  simp only [processImage]
  repeat' split
  all_goals try simp [List.countP_append, isQualityTag_forced]
  all_goals apply compressLoop_countP_quality
  all_goals
    first
    | exact hts2 _ _ _ (resizeStage_countP_quality _ _ _ _)
    | simp [List.countP_append, resizeStage_countP_quality,
        isQualityTag_qualityTag]

/-- C7 (amended): zero or missing reported dimensions are not treated as a
decode failure — `getImageInfo` returns them defaulted to 0 and
`processImage` proceeds normally, returning a result whose `originalWidth`
is 0 (the zero is silently propagated; no error is raised). -/
theorem C7_amended_zero_propagates (meta : SharpMetadata) (len : ℕ)
    (hw : meta.width.getD 0 = 0) :
    (getImageInfo meta len).width = 0 ∧
    ∀ (enc : ℕ → ℕ → ℕ → ℕ) (opts : ProcessImageOptions),
      (processImage enc meta len opts).transformInfo.originalWidth = 0 := by
  constructor
  · simp [getImageInfo, hw]
  · intro enc opts
    simp only [processImage]
    repeat' split
    all_goals simp [hw]

/-- C7 witness: with a metadata record reporting no width at all,
`getImageInfo` and `processImage` both return width 0 rather than failing. -/
theorem C7_amended_witness :
    (getImageInfo ⟨none, some 5, none⟩ 7).width = 0 ∧
    (processImage (fun _ _ _ => 3) ⟨none, some 5, none⟩ 7
      {}).transformInfo.originalWidth = 0 :=
  ⟨(C7_amended_zero_propagates ⟨none, some 5, none⟩ 7 rfl).1,
    (C7_amended_zero_propagates ⟨none, some 5, none⟩ 7 rfl).2 (fun _ _ _ => 3) {}⟩

/-- C8: in every invocation of `processImage`, the number of encoder
invocations is bounded by the number of quality steps from the initial
quality down to the floor plus two (one initial encode, the loop, and at
most one re-encode after the single forced resize), and the transform log
contains at most one forced-resize tag — no iteration follows the forced
step. -/
theorem C8_encode_bound (enc : ℕ → ℕ → ℕ → ℕ) (meta : SharpMetadata)
    (len : ℕ) (opts : ProcessImageOptions) :
    (processImage enc meta len opts).encodeCalls ≤
      numQualitySteps (opts.quality.getD IMAGE_DEFAULTS.jpegQuality) + 2 ∧
    ((processImage enc meta len opts).transformInfo.transforms).countP
      isForcedTag ≤ 1 := by
  constructor
  · simp only [processImage]
    repeat' split
    all_goals dsimp only
    all_goals
      first
      | exact Nat.add_le_add_right (loop_calls_le _ _ _ _ _ _ _ _) 1
      | exact le_trans (loop_calls_le _ _ _ _ _ _ _ _) (by omega)
  · simp only [processImage]
    repeat' split
    all_goals
      simp [List.countP_append,
        compressLoop_countP_eq isForcedTag isForcedTag_qualityTag
          isForcedTag_of_isQualityTag,
        resizeStage_countP_forced, isForcedTag_qualityTag, isForcedTag_forcedTag]

end DevEyes
